import Mathlib

/-!
Verification of the voice-box realtime gateway core against its source.

Shallow embedding of:
* `src/server/src/services/doubaoProtocol.ts` (binary frame codec),
* `src/server/src/services/historyStore.ts` (session journal),
* `src/server/src/routes/realtime.ts` (session HTTP + relay),
* the upstream client (`DoubaoRealtimeClient`).

Byte sequences are `List Nat` (each element a byte value).  JavaScript strings
are represented by their UTF-8 byte sequences where they flow into buffers, and
by Lean `String` at the HTTP/journal level.  Machine-integer writes are modelled
with explicit `% 2 ^ w`.  External Node libraries (`zlib` gzip, `JSON`
stringify/parse) are modelled by concrete computable functions satisfying
exactly the contracts the source relies on (round-trip, possible failure on
arbitrary input); everything else is translated from the source.
-/

namespace VoiceBox

/-! ## Byte-level helpers -/

/-- Buffer write of a 4-byte big-endian unsigned 32-bit integer
(`Buffer.writeUInt32BE`); in Node a value `≥ 2 ^ 32` throws, theorems about
the encoder therefore carry a `< 2 ^ 32` hypothesis. -/
def uint32be (n : Nat) : List Nat :=
  [n / 2 ^ 24 % 256, n / 2 ^ 16 % 256, n / 2 ^ 8 % 256, n % 256]

/-- `allocInt32` in the source writes a signed 32-bit big-endian integer; it is
only ever applied to a session-id byte length, a small natural number.  For
`0 ≤ n < 2 ^ 31` the written bytes coincide with the unsigned encoding. -/
def allocInt32 (n : Nat) : List Nat := uint32be (n % 2 ^ 32)

/-- Plain 4-byte big-endian read at an offset (no bounds fault). -/
def readUInt32At (bs : List Nat) (off : Nat) : Nat :=
  bs.getD off 0 * 2 ^ 24 + bs.getD (off + 1) 0 * 2 ^ 16 +
    bs.getD (off + 2) 0 * 2 ^ 8 + bs.getD (off + 3) 0

/-- Error raised by out-of-range `Buffer.readUInt32BE` / `readInt32BE`. -/
inductive BufferReadError where
  | outOfRange
deriving DecidableEq, Repr

/-- `Buffer.readUInt32BE(offset)`: throws `RangeError` when fewer than four
bytes are available at `offset`. -/
def readUInt32BE (bs : List Nat) (off : Nat) : Except BufferReadError Nat :=
  if off + 4 ≤ bs.length then .ok (readUInt32At bs off) else .error .outOfRange

/-- `Buffer.readInt32BE(offset)`: signed variant. -/
def readInt32BE (bs : List Nat) (off : Nat) : Except BufferReadError Int :=
  if off + 4 ≤ bs.length then
    let u := readUInt32At bs off
    .ok (if u < 2 ^ 31 then (u : Int) else (u : Int) - 2 ^ 32)
  else .error .outOfRange

/-- UTF-8 encoding of one Unicode code point. -/
def utf8EncodeCodePoint (c : Nat) : List Nat :=
  if c < 0x80 then [c]
  else if c < 0x800 then [0xC0 + c / 64, 0x80 + c % 64]
  else if c < 0x10000 then [0xE0 + c / 4096, 0x80 + c / 64 % 64, 0x80 + c % 64]
  else [0xF0 + c / 262144, 0x80 + c / 4096 % 64, 0x80 + c / 64 % 64, 0x80 + c % 64]

/-- `Buffer.from(s, "utf8")`: a Lean `String` rendered as its UTF-8 bytes. -/
def utf8 (s : String) : List Nat :=
  s.data.flatMap (fun c => utf8EncodeCodePoint c.toNat)

/-- ASCII shorthand for string literals whose characters are all `< 128`
(for those, UTF-8 is one byte per character). -/
def ascii (s : String) : List Nat := utf8 s

/-- `needle.isPrefixOf`-based substring test, modelling JavaScript
`String.prototype.includes`. -/
def hasSub (needle : List Char) : List Char → Bool
  | [] => needle.isEmpty
  | c :: rest => needle.isPrefixOf (c :: rest) || hasSub needle rest

/-! ## Modelled JSON library

The codec treats payload values opaquely through `JSON.stringify` /
`JSON.parse`.  We model JSON values as a mutual inductive and the
stringify/parse pair as a concrete, computable, injective byte encoding with a
partial inverse — exactly the contract the source relies on:
`parse (stringify v) = some v`, and `parse` may fail on arbitrary bytes
(in which case `decodePayload` falls back to the raw text). -/

mutual
inductive JsVal : Type where
  | jnull : JsVal
  | jbool : Bool → JsVal
  | jnum : Int → JsVal
  | jstr : List Nat → JsVal
  | jarr : JsItems → JsVal
  | jobj : JsFields → JsVal

inductive JsItems : Type where
  | inil : JsItems
  | icons : JsVal → JsItems → JsItems

inductive JsFields : Type where
  | fnil : JsFields
  | fcons : List Nat → JsVal → JsFields → JsFields
end

/-- Self-delimiting unary encoding of a natural number (model-internal). -/
def natEnc (n : Nat) : List Nat := List.replicate n 1 ++ [0]

/-- Inverse of `natEnc`, returning the remaining bytes. -/
def decNat : List Nat → Option (Nat × List Nat)
  | 0 :: rest => some (0, rest)
  | 1 :: rest =>
    match decNat rest with
    | some (n, r) => some (n + 1, r)
    | none => none
  | _ => none

/-- Length-prefixed byte-string encoding (model-internal). -/
def strEnc (s : List Nat) : List Nat := natEnc s.length ++ s

/-- Inverse of `strEnc`. -/
def decStr (bs : List Nat) : Option (List Nat × List Nat) :=
  match decNat bs with
  | some (n, r) => some (r.take n, r.drop n)
  | none => none

/-- Sign-tagged integer encoding (model-internal). -/
def intEnc : Int → List Nat
  | .ofNat n => 0 :: natEnc n
  | .negSucc n => 1 :: natEnc n

/-- Inverse of `intEnc`. -/
def decInt : List Nat → Option (Int × List Nat)
  | 0 :: rest =>
    match decNat rest with
    | some (n, r) => some ((n : Int), r)
    | none => none
  | 1 :: rest =>
    match decNat rest with
    | some (n, r) => some (Int.negSucc n, r)
    | none => none
  | _ => none

mutual
/-- Byte rendering of a JSON value (the model of `JSON.stringify`). -/
def encVal : JsVal → List Nat
  | .jnull => [0]
  | .jbool b => [1, cond b 1 0]
  | .jnum i => 2 :: intEnc i
  | .jstr s => 3 :: strEnc s
  | .jarr xs => 4 :: encItems xs
  | .jobj fs => 5 :: encFields fs

/-- Byte rendering of a JSON array body. -/
def encItems : JsItems → List Nat
  | .inil => [0]
  | .icons v rest => 1 :: (encVal v ++ encItems rest)

/-- Byte rendering of a JSON object body. -/
def encFields : JsFields → List Nat
  | .fnil => [0]
  | .fcons k v rest => 1 :: (strEnc k ++ encVal v ++ encFields rest)
end

mutual
/-- Fuelled decoder for JSON values (the model of `JSON.parse`). -/
def decVal : Nat → List Nat → Option (JsVal × List Nat)
  | 0, _ => none
  | _ + 1, 0 :: rest => some (.jnull, rest)
  | _ + 1, 1 :: b :: rest => some (.jbool (b == 1), rest)
  | _ + 1, 2 :: rest =>
    match decInt rest with
    | some (i, r) => some (.jnum i, r)
    | none => none
  | _ + 1, 3 :: rest =>
    match decStr rest with
    | some (s, r) => some (.jstr s, r)
    | none => none
  | fuel + 1, 4 :: rest =>
    match decItems fuel rest with
    | some (xs, r) => some (.jarr xs, r)
    | none => none
  | fuel + 1, 5 :: rest =>
    match decFields fuel rest with
    | some (fs, r) => some (.jobj fs, r)
    | none => none
  | _ + 1, _ => none

/-- Fuelled decoder for JSON array bodies. -/
def decItems : Nat → List Nat → Option (JsItems × List Nat)
  | 0, _ => none
  | _ + 1, 0 :: rest => some (.inil, rest)
  | fuel + 1, 1 :: rest =>
    match decVal fuel rest with
    | some (v, r1) =>
      match decItems fuel r1 with
      | some (xs, r2) => some (.icons v xs, r2)
      | none => none
    | none => none
  | _ + 1, _ => none

/-- Fuelled decoder for JSON object bodies. -/
def decFields : Nat → List Nat → Option (JsFields × List Nat)
  | 0, _ => none
  | _ + 1, 0 :: rest => some (.fnil, rest)
  | fuel + 1, 1 :: rest =>
    match decStr rest with
    | some (k, r0) =>
      match decVal fuel r0 with
      | some (v, r1) =>
        match decFields fuel r1 with
        | some (fs, r2) => some (.fcons k v fs, r2)
        | none => none
      | none => none
    | none => none
  | _ + 1, _ => none
end

mutual
/-- Constructor-depth measure used to budget decoder fuel. -/
def JsVal.nodes : JsVal → Nat
  | .jarr xs => JsItems.nodes xs + 1
  | .jobj fs => JsFields.nodes fs + 1
  | _ => 1

/-- Constructor-depth measure for array bodies. -/
def JsItems.nodes : JsItems → Nat
  | .inil => 1
  | .icons v rest => JsVal.nodes v + JsItems.nodes rest + 1

/-- Constructor-depth measure for object bodies. -/
def JsFields.nodes : JsFields → Nat
  | .fnil => 1
  | .fcons _ v rest => JsVal.nodes v + JsFields.nodes rest + 1
end

/-- Model of `JSON.stringify` producing bytes (UTF-8 text in the source). -/
def jsonStringifyBytes (v : JsVal) : List Nat := encVal v

/-- Model of `JSON.parse` on bytes; fails (like a thrown `SyntaxError`) on
input that is not the rendering of a value, including trailing garbage. -/
def jsonParseBytes (bs : List Nat) : Option JsVal :=
  match decVal (bs.length + 1) bs with
  | some (v, []) => some v
  | _ => none

/-! ## Modelled gzip library

`gzipSync`/`gunzipSync` from `node:zlib`, modelled as an invertible magic-tag
framing: the model keeps the two properties the source uses — decompression
inverts compression, compressed data is never empty, and decompression of
arbitrary bytes may fail (a thrown error in Node, `none` here). -/

/-- Model of `zlib.gzipSync` (the real output starts with magic `1f 8b`). -/
def gzipSyncM (bytes : List Nat) : List Nat := 31 :: 139 :: bytes

/-- Model of `zlib.gunzipSync`; `none` models the exception thrown on input
that is not gzip data. -/
def gunzipSyncM : List Nat → Option (List Nat)
  | 31 :: 139 :: rest => some rest
  | _ => none

/-! ## String rendering of JSON values

`String(payload)` in `encodePayload`'s no-serialization branch, for values
that are neither byte buffers, strings nor null. -/

mutual
/-- JavaScript `String(v)` for the modelled value universe. -/
def jsToString : JsVal → List Nat
  | .jnull => ascii "null"
  | .jbool b => if b then ascii "true" else ascii "false"
  | .jnum i => ascii (toString i)
  | .jstr s => s
  | .jarr xs => itemsToString xs
  | .jobj _ => ascii "[object Object]"

/-- `Array.prototype.toString`: comma-joined elements, null rendered empty. -/
def itemsToString : JsItems → List Nat
  | .inil => []
  | .icons .jnull .inil => []
  | .icons v .inil => jsToString v
  | .icons .jnull rest => 44 :: itemsToString rest
  | .icons v rest => jsToString v ++ 44 :: itemsToString rest
end

/-- `Buffer.prototype.toJSON`: `JSON.stringify` of a Node buffer produces
an object of shape `\x7b type: "Buffer", data: [bytes...] \x7d`. -/
def bufferDataItems : List Nat → JsItems
  | [] => .inil
  | b :: rest => .icons (.jnum (b : Int)) (bufferDataItems rest)

/-- The JSON value `JSON.stringify` serializes for a buffer payload. -/
def bufferToJson (bs : List Nat) : JsVal :=
  .jobj (.fcons (ascii "type") (.jstr (ascii "Buffer"))
    (.fcons (ascii "data") (.jarr (bufferDataItems bs)) .fnil))

/-! ## Frame codec (`doubaoProtocol.ts`) -/

/-- `PROTOCOL_VERSION = 0b0001`. -/
def PROTOCOL_VERSION : Nat := 1

/-- `MessageType.CLIENT_FULL_REQUEST = 0b0001`. -/
def CLIENT_FULL_REQUEST : Nat := 1
/-- `MessageType.CLIENT_AUDIO_ONLY_REQUEST = 0b0010`. -/
def CLIENT_AUDIO_ONLY_REQUEST : Nat := 2
/-- `MessageType.SERVER_FULL_RESPONSE = 0b1001`. -/
def SERVER_FULL_RESPONSE : Nat := 9
/-- `MessageType.SERVER_ACK = 0b1011`. -/
def SERVER_ACK : Nat := 11
/-- `MessageType.SERVER_ERROR_RESPONSE = 0b1111`. -/
def SERVER_ERROR_RESPONSE : Nat := 15

/-- `MessageTypeSpecificFlags.NO_SEQUENCE = 0b0000`. -/
def NO_SEQUENCE : Nat := 0
/-- `MessageTypeSpecificFlags.POS_SEQUENCE = 0b0001`. -/
def POS_SEQUENCE : Nat := 1
/-- `MessageTypeSpecificFlags.NEG_SEQUENCE = 0b0010`. -/
def NEG_SEQUENCE : Nat := 2
/-- `MessageTypeSpecificFlags.MSG_WITH_EVENT = 0b0100`. -/
def MSG_WITH_EVENT : Nat := 4

/-- `MessageSerialization.NO_SERIALIZATION = 0b0000`. -/
def NO_SERIALIZATION : Nat := 0
/-- `MessageSerialization.JSON = 0b0001`. -/
def JSON_SER : Nat := 1

/-- `MessageCompression.NO_COMPRESSION = 0b0000`. -/
def NO_COMPRESSION : Nat := 0
/-- `MessageCompression.GZIP = 0b0001`. -/
def GZIP : Nat := 1

/-- The `unknown` payload handed to `createDoubaoFrame`: a byte buffer
(`Uint8Array`), a string (as UTF-8 bytes), `null`/`undefined`, or a plain
JSON-like value. -/
inductive JsRuntimeVal : Type where
  | vbytes : List Nat → JsRuntimeVal
  | vstr : List Nat → JsRuntimeVal
  | vnull : JsRuntimeVal
  | vjson : JsVal → JsRuntimeVal

/-- `payload ?? \x7b\x7d` as the argument of `JSON.stringify`. -/
def stringifyArg : JsRuntimeVal → JsVal
  | .vnull => .jobj .fnil
  | .vjson v => v
  | .vstr s => .jstr s
  | .vbytes bs => bufferToJson bs

/-- `encodePayload(payload, serialization, compression)`. -/
def encodePayload (payload : JsRuntimeVal) (serialization compression : Nat) :
    List Nat :=
  let bytes :=
    if serialization = NO_SERIALIZATION then
      match payload with
      | .vbytes bs => bs
      | .vstr s => s
      | .vnull => []
      | .vjson v => jsToString v
    else
      jsonStringifyBytes (stringifyArg payload)
  if compression = GZIP then gzipSyncM bytes else bytes

/-- `generateHeader(...)`: the 4-byte fixed header (headerSize is the
constant 1; buffer byte assignment truncates `% 256`). -/
def generateHeader (messageType messageTypeSpecificFlags serialization compression : Nat) :
    List Nat :=
  let headerSize := 1
  [(PROTOCOL_VERSION <<< 4 ||| headerSize) % 256,
   (messageType <<< 4 ||| messageTypeSpecificFlags) % 256,
   (serialization <<< 4 ||| compression) % 256,
   0]

/-- `createDoubaoFrame(...)`.  The TypeScript defaults
(`messageType = CLIENT_FULL_REQUEST`, flags `MSG_WITH_EVENT`,
serialization JSON, compression GZIP, payload `\x7b\x7d`) are supplied
explicitly at each modelled call site. -/
def createDoubaoFrame (event : Nat) (sessionId : Option (List Nat))
    (payload : JsRuntimeVal)
    (messageType messageTypeSpecificFlags serialization compression : Nat) :
    List Nat :=
  let header := generateHeader messageType messageTypeSpecificFlags serialization compression
  let eventBuffer := uint32be event
  let payloadBytes := encodePayload payload serialization compression
  let payloadLengthBuffer := uint32be payloadBytes.length
  match sessionId with
  | none => header ++ eventBuffer ++ payloadLengthBuffer ++ payloadBytes
  | some sid =>
    let sessionSizeBuffer := allocInt32 sid.length
    header ++ eventBuffer ++ sessionSizeBuffer ++ sid ++ payloadLengthBuffer ++ payloadBytes

/-- The `unknown` result of `decodePayload`: a parsed JSON value, a UTF-8
string (as bytes), or raw bytes. -/
inductive DecodedPayload : Type where
  | pjson : JsVal → DecodedPayload
  | pstr : List Nat → DecodedPayload
  | pbytes : List Nat → DecodedPayload

/-- The serialization step of `decodePayload` (runs on the decompressed
bytes; the JSON catch falls back to the UTF-8 text). -/
def decodeSerialized (bytes : List Nat) (serialization : Nat) : DecodedPayload :=
  if serialization = JSON_SER then
    match jsonParseBytes bytes with
    | some v => .pjson v
    | none => .pstr bytes
  else if serialization = NO_SERIALIZATION then .pbytes bytes
  else .pstr bytes

/-- `decodePayload(payloadBytes, serialization, compression)`: the gunzip
catch returns the raw payload bytes unchanged. -/
def decodePayload (payloadBytes : List Nat) (serialization compression : Nat) :
    DecodedPayload :=
  if compression = GZIP ∧ payloadBytes.length > 0 then
    match gunzipSyncM payloadBytes with
    | none => .pbytes payloadBytes
    | some bytes => decodeSerialized bytes serialization
  else decodeSerialized payloadBytes serialization

/-- `ParsedDoubaoMessage`. -/
structure ParsedDoubaoMessage : Type where
  protocolVersion : Nat
  headerSize : Nat
  messageType : Nat
  messageTypeSpecificFlags : Nat
  serialization : Nat
  compression : Nat
  event : Option Nat
  sequence : Option Nat
  sessionId : Option (List Nat)
  code : Option Nat
  payloadSize : Nat
  payload : DecodedPayload
  payloadBytes : List Nat

/-- The `Buffer | string` argument of `parseDoubaoMessage`.  A JavaScript
string is represented by its UTF-8 byte rendering. -/
inductive RawInput : Type where
  | str : List Nat → RawInput
  | buf : List Nat → RawInput

/-- The session-id/payload tail shared by `SERVER_FULL_RESPONSE` and
`SERVER_ACK` frames (source lines 145-160); `offset` is the number of
optional-field bytes already consumed. -/
def finishServerFrame (protocolVersion headerSize messageType flags serialization compression : Nat)
    (payloadView : List Nat) (sequence event : Option Nat) (offset : Nat) :
    Except BufferReadError (Option ParsedDoubaoMessage) :=
  let payloadView := payloadView.drop offset
  if payloadView.length < 4 then .ok none else
  match readInt32BE payloadView 0 with
  | .error e => .error e
  | .ok sessionIdSize =>
    if sessionIdSize < 0 ∨ (payloadView.length : Int) < 4 + sessionIdSize + 4 then .ok none else
    let sessionId := (payloadView.drop 4).take sessionIdSize.toNat
    let payloadView := payloadView.drop (4 + sessionIdSize.toNat)
    match readUInt32BE payloadView 0 with
    | .error e => .error e
    | .ok payloadSize =>
      let payloadBytes := (payloadView.drop 4).take payloadSize
      .ok (some
        { protocolVersion := protocolVersion
          headerSize := headerSize
          messageType := messageType
          messageTypeSpecificFlags := flags
          serialization := serialization
          compression := compression
          event := event
          sequence := sequence
          sessionId := some sessionId
          code := none
          payloadSize := payloadSize
          payload := decodePayload payloadBytes serialization compression
          payloadBytes := payloadBytes })

/-- `parseDoubaoMessage(raw)`.  The result lives in `Except`: `.error` marks
a thrown buffer read (never reached, see the safety theorem), `.ok none` is
the source's `return null`, `.ok (some m)` a parsed frame.  The source's
mutable `offset` over the two optional reads is unrolled into the four flag
cases with their concrete offsets. -/
def parseDoubaoMessage (raw : RawInput) :
    Except BufferReadError (Option ParsedDoubaoMessage) :=
  match raw with
  | .str _ => .ok none
  | .buf raw =>
    if raw.length < 4 then .ok none else
    let protocolVersion := raw.getD 0 0 / 16
    let headerSize := raw.getD 0 0 % 16
    let messageType := raw.getD 1 0 / 16
    let messageTypeSpecificFlags := raw.getD 1 0 % 16
    let serialization := raw.getD 2 0 / 16
    let compression := raw.getD 2 0 % 16
    if raw.length < headerSize * 4 then .ok none else
    let payloadView := raw.drop (headerSize * 4)
    if messageType = SERVER_FULL_RESPONSE ∨ messageType = SERVER_ACK then
      if messageTypeSpecificFlags &&& NEG_SEQUENCE > 0 then
        if payloadView.length < 0 + 4 then .ok none else
        match readUInt32BE payloadView 0 with
        | .error e => .error e
        | .ok seq =>
          if messageTypeSpecificFlags &&& MSG_WITH_EVENT > 0 then
            if payloadView.length < 4 + 4 then .ok none else
            match readUInt32BE payloadView 4 with
            | .error e => .error e
            | .ok ev =>
              finishServerFrame protocolVersion headerSize messageType
                messageTypeSpecificFlags serialization compression
                payloadView (some seq) (some ev) 8
          else
            finishServerFrame protocolVersion headerSize messageType
              messageTypeSpecificFlags serialization compression
              payloadView (some seq) none 4
      else
        if messageTypeSpecificFlags &&& MSG_WITH_EVENT > 0 then
          if payloadView.length < 0 + 4 then .ok none else
          match readUInt32BE payloadView 0 with
          | .error e => .error e
          | .ok ev =>
            finishServerFrame protocolVersion headerSize messageType
              messageTypeSpecificFlags serialization compression
              payloadView none (some ev) 4
        else
          finishServerFrame protocolVersion headerSize messageType
            messageTypeSpecificFlags serialization compression
            payloadView none none 0
    else if messageType = SERVER_ERROR_RESPONSE then
      if payloadView.length < 8 then .ok none else
      match readUInt32BE payloadView 0 with
      | .error e => .error e
      | .ok code =>
        match readUInt32BE payloadView 4 with
        | .error e => .error e
        | .ok payloadSize =>
          let payloadBytes := (payloadView.drop 8).take payloadSize
          .ok (some
            { protocolVersion := protocolVersion
              headerSize := headerSize
              messageType := messageType
              messageTypeSpecificFlags := messageTypeSpecificFlags
              serialization := serialization
              compression := compression
              event := none
              sequence := none
              sessionId := none
              code := some code
              payloadSize := payloadSize
              payload := decodePayload payloadBytes serialization compression
              payloadBytes := payloadBytes })
    else .ok none

/-- `toBuffer` in `DoubaoRealtimeClient.bindSocketListeners`: the read loop
converts incoming data (including text frames) to a buffer before parsing. -/
def toBufferRaw : RawInput → List Nat
  | .str s => s
  | .buf b => b

/-- The read-loop composition `parseDoubaoMessage(toBuffer(data))`. -/
def readLoopParse (raw : RawInput) :
    Except BufferReadError (Option ParsedDoubaoMessage) :=
  parseDoubaoMessage (.buf (toBufferRaw raw))

/-! ## Session journal (`historyStore.ts`) -/

/-- `DEFAULT_CONTEXT_TURNS`. -/
def DEFAULT_CONTEXT_TURNS : Nat := 12

/-- The validated session-config body (`sessionCreateSchema`). -/
structure SessionCreateInput : Type where
  speaker : Option String := none
  botName : Option String := none
  systemRole : Option String := none
  speakingStyle : Option String := none
  locationCity : Option String := none
  recvTimeout : Option Nat := none
  inputMod : Option String := none
deriving DecidableEq, Repr

/-- The `Record<string, unknown>` event payload, restricted to the fields the
journal and its consumers inspect.  `none` models a field that is absent or
not a string/number (`typeof turn.payload.userText === "string"` fails). -/
structure EventPayload : Type where
  source : Option String := none
  config : Option SessionCreateInput := none
  bytes : Option Nat := none
  content : Option String := none
  code : Option Nat := none
  userText : Option String := none
  assistantText : Option String := none
deriving DecidableEq, Repr

/-- `SessionEvent`; timestamps are epoch milliseconds (the RFC 3339 rendering
`new Date().toISOString()` is an injective, order-preserving view of them). -/
structure SessionEvent : Type where
  ts : Nat
  type : String
  payload : EventPayload
deriving DecidableEq, Repr

/-- `SessionMeta`. -/
structure SessionMeta : Type where
  sessionId : String
  createdAt : Nat
  updatedAt : Nat
  turns : Nat
  errors : Nat
deriving DecidableEq, Repr

/-- On-disk state of one session: its `.jsonl` events and `.meta.json`
sidecar (`none` before the first append). -/
structure StoreFileState : Type where
  events : List SessionEvent
  meta : Option SessionMeta
deriving DecidableEq, Repr

/-- The empty pair of files. -/
def emptyFileState : StoreFileState := { events := [], meta := none }

/-- The store's base directory: an association of session id to files. -/
def StoreFiles : Type := List (String × StoreFileState)

/-- Association lookup. -/
def lookupA {α : Type} : List (String × α) → String → Option α
  | [], _ => none
  | (k, v) :: rest, key => if k = key then some v else lookupA rest key

/-- Association lookup with default. -/
def lookupD {α : Type} (l : List (String × α)) (key : String) (d : α) : α :=
  (lookupA l key).getD d

/-- Remove a key. -/
def eraseA {α : Type} (key : String) (l : List (String × α)) : List (String × α) :=
  l.filter (fun p => decide (p.1 ≠ key))

/-- Set a key to a value. -/
def setA {α : Type} (key : String) (v : α) (l : List (String × α)) : List (String × α) :=
  (key, v) :: eraseA key l

/-- `type.includes("error")`. -/
def typeHasError (t : String) : Bool := hasSub "error".toList t.toList

/-- `SessionStore.updateMeta`: read (or freshly create) the meta, stamp
`updatedAt`, bump `turns` on `turn_completed`, bump `errors` when the type
contains `"error"`. -/
def updateMeta (sessionId : String) (stored : Option SessionMeta) (eventType : String)
    (nowTs : Nat) : SessionMeta :=
  let meta :=
    match stored with
    | some m => m
    | none =>
      { sessionId := sessionId, createdAt := nowTs, updatedAt := nowTs, turns := 0, errors := 0 }
  let meta := { meta with updatedAt := nowTs }
  let meta := if eventType = "turn_completed" then { meta with turns := meta.turns + 1 } else meta
  if typeHasError eventType then { meta with errors := meta.errors + 1 } else meta

/-- `SessionStore.appendEvent`: a no-op when the save-history toggle is off,
otherwise appends one event line and rewrites the meta sidecar. -/
def appendEvent (saveHistory : Bool) (files : StoreFiles) (sessionId : String)
    (type : String) (payload : EventPayload) (nowTs : Nat) : StoreFiles :=
  if !saveHistory then files
  else
    let st := lookupD files sessionId emptyFileState
    setA sessionId
      { events := st.events ++ [{ ts := nowTs, type := type, payload := payload }]
        meta := some (updateMeta sessionId st.meta type nowTs) }
      files

/-- `SessionStore.listSessions`: metas of all sessions (skipping sessions
without a meta or with an empty `sessionId`), newest `updatedAt` first. -/
def listSessions (saveHistory : Bool) (files : StoreFiles) : List SessionMeta :=
  if !saveHistory then []
  else
    let metas := (files.filterMap (fun p => p.2.meta)).filter
      (fun m => decide (m.sessionId ≠ ""))
    metas.mergeSort (fun a b => decide (b.updatedAt ≤ a.updatedAt))

/-- `SessionStore.getSessionEvents`: empty when saving is off or the file is
missing. -/
def getSessionEvents (saveHistory : Bool) (files : StoreFiles) (sessionId : String) :
    List SessionEvent :=
  if !saveHistory then []
  else (lookupD files sessionId emptyFileState).events

/-- Membership in JavaScript's trimmed-whitespace set (the characters
relevant to `.trim()`). -/
def isJsSpace (c : Char) : Bool :=
  c == ' ' || c == '\t' || c == '\n' || c == '\r' ||
    c.toNat = 11 || c.toNat = 12 || c.toNat = 160 || c.toNat = 0xFEFF

/-- `s.trim().length > 0`: some character survives trimming. -/
def trimNonempty (s : String) : Bool := s.data.any (fun c => !isJsSpace c)

/-- Conversation roles. -/
inductive Role : Type where
  | user
  | assistant
deriving DecidableEq, Repr

/-- `ConversationMessage`. -/
structure ConversationMessage : Type where
  role : Role
  text : String
deriving DecidableEq, Repr

/-- JavaScript `list.slice(-n)`: the last `n` elements — except that
`slice(-0)` is `slice(0)`, the whole list. -/
def sliceLast {α : Type} (n : Nat) (l : List α) : List α :=
  if n = 0 then l else l.drop (l.length - n)

/-- The messages contributed by one `turn_completed` event (loop body of
`getConversationMessages`): the untrimmed text is pushed whenever its trim is
non-empty. -/
def turnMessages (turn : SessionEvent) : List ConversationMessage :=
  let userText := (turn.payload.userText).getD ""
  let assistantText := (turn.payload.assistantText).getD ""
  (if trimNonempty userText then [{ role := .user, text := userText }] else []) ++
    (if trimNonempty assistantText then [{ role := .assistant, text := assistantText }] else [])

/-- Body of `SessionStore.getConversationMessages` on an already-loaded event
list. -/
def conversationFromEvents (events : List SessionEvent) (maxTurns : Nat) :
    List ConversationMessage :=
  let completedTurns := sliceLast maxTurns
    (events.filter (fun e => decide (e.type = "turn_completed")))
  completedTurns.flatMap turnMessages

/-- `SessionStore.getConversationMessages`. -/
def getConversationMessages (saveHistory : Bool) (files : StoreFiles) (sessionId : String)
    (maxTurns : Nat) : List ConversationMessage :=
  conversationFromEvents (getSessionEvents saveHistory files sessionId) maxTurns

/-- Response of `GET /api/history/:sessionId`. -/
inductive HistoryDetailResponse : Type where
  | ok : String → List SessionEvent → HistoryDetailResponse
  | notFound : HistoryDetailResponse
deriving DecidableEq, Repr

/-- `historyRoutes` list endpoint: `GET /api/history`. -/
def historyListRoute (saveHistory : Bool) (files : StoreFiles) : List SessionMeta :=
  listSessions saveHistory files

/-- `historyRoutes` detail endpoint: 404 `session_not_found` when the journal
has zero events. -/
def historyDetailRoute (saveHistory : Bool) (files : StoreFiles) (sessionId : String) :
    HistoryDetailResponse :=
  let events := getSessionEvents saveHistory files sessionId
  if events.length = 0 then .notFound else .ok sessionId events

/-- A sequence of append requests against one session (type, payload,
timestamp). -/
def runAppends (saveHistory : Bool) (sessionId : String) (files : StoreFiles) :
    List (String × EventPayload × Nat) → StoreFiles
  | [] => files
  | (type, payload, ts) :: rest =>
    runAppends saveHistory sessionId (appendEvent saveHistory files sessionId type payload ts) rest

/-! ## Upstream client and gateway relay (`doubaoRealtimeClient.ts`,
`realtime.ts`) -/

/-- `WebSocket.OPEN`. -/
def WS_OPEN : Nat := 1

/-- Observable state of a browser socket handle. -/
structure ClientSocketState : Type where
  readyState : Nat
deriving DecidableEq, Repr

/-- Observable state of a `DoubaoRealtimeClient`. -/
structure UpstreamClientState : Type where
  sessionId : String
  started : Bool
  closed : Bool
  wsConnected : Bool
deriving DecidableEq, Repr

/-- A `GatewaySession` record. -/
structure GatewaySessionState : Type where
  id : String
  config : SessionCreateInput
  upstream : Option UpstreamClientState
  clientSocket : Option ClientSocketState
deriving DecidableEq, Repr

/-- The registry: session id → live record. -/
def SessionsMap : Type := List (String × GatewaySessionState)

/-- Operator configuration fields consumed by the relay. -/
structure AppConfig : Type where
  doubaoSpeaker : String
  doubaoBotName : String
  doubaoRecvTimeout : Nat
  doubaoInputMod : String
  doubaoOutputAudioFormat : String
  doubaoOutputSampleRate : Nat
deriving DecidableEq, Repr

/-- Browser-bound messages emitted on the paths modelled here. -/
inductive ServerMessage : Type where
  | serverReady : String → String → ServerMessage
  | serverEvent : Nat → String → ServerMessage
  | serverError : String → ServerMessage
deriving DecidableEq, Repr

/-- One observable side effect of the relay. -/
inductive GatewayAction : Type where
  | upstreamSend : List Nat → GatewayAction
  | upstreamSocketClose : GatewayAction
  | journalAppend : String → String → EventPayload → GatewayAction
  | clientSend : ServerMessage → GatewayAction
  | clientClose : Nat → GatewayAction
deriving DecidableEq, Repr

/-- `sendStartConnection`: event 1, empty JSON body, no session id. -/
def startConnectionFrame : List Nat :=
  createDoubaoFrame 1 none (.vjson (.jobj .fnil))
    CLIENT_FULL_REQUEST MSG_WITH_EVENT JSON_SER GZIP

/-- `close()`'s finish-connection frame: event 2, no session id. -/
def finishConnectionFrame : List Nat :=
  createDoubaoFrame 2 none (.vjson (.jobj .fnil))
    CLIENT_FULL_REQUEST MSG_WITH_EVENT JSON_SER GZIP

/-- Event 102 (finish-session) with the current session id. -/
def finishSessionFrame (sid : String) : List Nat :=
  createDoubaoFrame 102 (some (utf8 sid)) (.vjson (.jobj .fnil))
    CLIENT_FULL_REQUEST MSG_WITH_EVENT JSON_SER GZIP

/-- `sendHello(content)`: event 300, body `\x7b content \x7d`. -/
def helloFrame (sid content : String) : List Nat :=
  createDoubaoFrame 300 (some (utf8 sid))
    (.vjson (.jobj (.fcons (ascii "content") (.jstr (utf8 content)) .fnil)))
    CLIENT_FULL_REQUEST MSG_WITH_EVENT JSON_SER GZIP

/-- `sendChatText(content)`: event 501, body `\x7b content \x7d`. -/
def chatTextFrame (sid content : String) : List Nat :=
  createDoubaoFrame 501 (some (utf8 sid))
    (.vjson (.jobj (.fcons (ascii "content") (.jstr (utf8 content)) .fnil)))
    CLIENT_FULL_REQUEST MSG_WITH_EVENT JSON_SER GZIP

/-- `sendAudioChunk(audio)`'s frame: event 200, audio-only message type, raw
serialization, gzip. -/
def clientAudioFrame (sid : String) (audio : List Nat) : List Nat :=
  createDoubaoFrame 200 (some (utf8 sid)) (.vbytes audio)
    CLIENT_AUDIO_ONLY_REQUEST MSG_WITH_EVENT NO_SERIALIZATION GZIP

/-- `sendAudioChunk`: a no-op on empty input, otherwise one frame. -/
def sendAudioChunkFrames (sid : String) (audio : List Nat) : List (List Nat) :=
  if audio.length = 0 then [] else [clientAudioFrame sid audio]

/-- The optional `location` object of the start-session body. -/
def locationFields : Option String → JsFields → JsFields
  | none, rest => rest
  | some city, rest =>
    .fcons (ascii "location") (.jobj (.fcons (ascii "city") (.jstr (utf8 city)) .fnil)) rest

/-- The start-session JSON body built by `startSession()`, with browser
config fields falling back to operator defaults. -/
def startSessionPayload (app : AppConfig) (s : GatewaySessionState) : JsVal :=
  .jobj (
    .fcons (ascii "asr")
      (.jobj (.fcons (ascii "extra")
        (.jobj (.fcons (ascii "end_smooth_window_ms") (.jnum 1500) .fnil)) .fnil)) (
    .fcons (ascii "tts")
      (.jobj (
        .fcons (ascii "speaker") (.jstr (utf8 ((s.config.speaker).getD app.doubaoSpeaker))) (
        .fcons (ascii "audio_config")
          (.jobj (
            .fcons (ascii "channel") (.jnum 1) (
            .fcons (ascii "format") (.jstr (utf8 app.doubaoOutputAudioFormat)) (
            .fcons (ascii "sample_rate") (.jnum (app.doubaoOutputSampleRate : Int)) .fnil))))
          .fnil))) (
    .fcons (ascii "dialog")
      (.jobj (
        .fcons (ascii "bot_name") (.jstr (utf8 ((s.config.botName).getD app.doubaoBotName))) (
        .fcons (ascii "system_role")
          (.jstr (utf8 ((s.config.systemRole).getD "你是一个高效、简洁、礼貌的语音助手。"))) (
        .fcons (ascii "speaking_style")
          (.jstr (utf8 ((s.config.speakingStyle).getD "自然、简洁、口语化。"))) (
        locationFields s.config.locationCity (
        .fcons (ascii "extra")
          (.jobj (
            .fcons (ascii "strict_audit") (.jbool false) (
            .fcons (ascii "recv_timeout") (.jnum ((s.config.recvTimeout).getD app.doubaoRecvTimeout : Int)) (
            .fcons (ascii "input_mod") (.jstr (utf8 ((s.config.inputMod).getD app.doubaoInputMod))) .fnil))))
          .fnil))))))
      .fnil)))

/-- `startSession()`'s frame: event 100 with the session id. -/
def startSessionFrame (app : AppConfig) (s : GatewaySessionState) : List Nat :=
  createDoubaoFrame 100 (some (utf8 s.id)) (.vjson (startSessionPayload app s))
    CLIENT_FULL_REQUEST MSG_WITH_EVENT JSON_SER GZIP

/-- `DoubaoRealtimeClient.close()`: an immediate no-op when already closed;
otherwise marks closed, best-effort sends finish-session and
finish-connection, and closes the socket when one is held. -/
def doubaoClientClose (c : UpstreamClientState) : UpstreamClientState × List GatewayAction :=
  if c.closed then (c, [])
  else
    ({ c with closed := true, wsConnected := false },
      [.upstreamSend (finishSessionFrame c.sessionId), .upstreamSend finishConnectionFrame] ++
        (if c.wsConnected then [.upstreamSocketClose] else []))

/-- `sendToClient`: dropped when no open browser socket is attached. -/
def sendToClient (session : GatewaySessionState) (message : ServerMessage) :
    List GatewayAction :=
  match session.clientSocket with
  | some sock => if sock.readyState = WS_OPEN then [.clientSend message] else []
  | none => []

/-- `closeGatewaySession(session, sessions, store)`: guarded no-op once the
record, upstream and socket are all gone; otherwise removes the record,
closes an open browser socket with code 1000, closes the upstream client and
journals `session_closed`. -/
def closeGatewaySession (session : GatewaySessionState) (sessions : SessionsMap) :
    GatewaySessionState × SessionsMap × List GatewayAction :=
  if (lookupA sessions session.id).isNone ∧ session.upstream.isNone ∧
      session.clientSocket.isNone then
    (session, sessions, [])
  else
    let sessions := eraseA session.id sessions
    let socketActions :=
      match session.clientSocket with
      | some sock => if sock.readyState = WS_OPEN then [GatewayAction.clientClose 1000] else []
      | none => []
    let upstreamActions :=
      match session.upstream with
      | some up => (doubaoClientClose up).2
      | none => []
    ({ session with clientSocket := none, upstream := none },
      sessions,
      socketActions ++ upstreamActions ++
        [.journalAppend session.id "session_closed" {}])

/-- `ensureUpstream(session, store)`: when no upstream client exists, create
and connect one (start-connection then start-session; the intervening waits
for upstream events 50/150 are asynchronous and carry no relay effects) and
journal `upstream_connected`. -/
def ensureUpstreamActions (app : AppConfig) (session : GatewaySessionState) :
    UpstreamClientState × List GatewayAction :=
  match session.upstream with
  | some u => (u, [])
  | none =>
    ({ sessionId := session.id, started := true, closed := false, wsConnected := true },
      [.upstreamSend startConnectionFrame,
       .upstreamSend (startSessionFrame app session),
       .journalAppend session.id "upstream_connected" {}])

/-- A schema-validated browser message (`clientMessageSchema`); the base64
`audio` field is carried as its decoded bytes
(`Buffer.from(parsed.data.audio, "base64")`). -/
inductive ClientMessage : Type where
  | clientStart : Option String → ClientMessage
  | clientAudioAppend : List Nat → ClientMessage
  | clientAudioCommit : ClientMessage
  | clientChatText : String → ClientMessage
  | clientInterrupt : ClientMessage
  | clientStop : ClientMessage
deriving DecidableEq, Repr

/-- `handleClientMessage` after JSON/schema validation: ensure the upstream,
then dispatch on the message type. -/
def handleClientMessage (app : AppConfig) (msg : ClientMessage)
    (session : GatewaySessionState) (sessions : SessionsMap) :
    GatewaySessionState × SessionsMap × List GatewayAction :=
  let ensured := ensureUpstreamActions app session
  let ensureActs := ensured.2
  let session := { session with upstream := some ensured.1 }
  match msg with
  | .clientStart hello =>
    (session, sessions,
      ensureActs ++ [.journalAppend session.id "client_started" {}] ++
        (match hello with
         | some h => [.upstreamSend (helloFrame session.id h)]
         | none => []))
  | .clientAudioAppend audio =>
    (session, sessions,
      ensureActs ++ (sendAudioChunkFrames session.id audio).map .upstreamSend ++
        [.journalAppend session.id "input_audio_chunk" { bytes := some audio.length }])
  | .clientAudioCommit =>
    (session, sessions,
      ensureActs ++
        ((List.range 12).flatMap fun _ =>
          (sendAudioChunkFrames session.id (List.replicate 3200 0)).map .upstreamSend) ++
        [.journalAppend session.id "input_audio_committed" {}])
  | .clientChatText content =>
    (session, sessions,
      ensureActs ++ [.upstreamSend (chatTextFrame session.id content)] ++
        [.journalAppend session.id "input_text" { content := some content }])
  | .clientInterrupt =>
    (session, sessions,
      ensureActs ++
        [.upstreamSend (finishSessionFrame session.id),
         .upstreamSend (startSessionFrame app session)] ++
        [.journalAppend session.id "session_interrupted" { source := some "client" }] ++
        sendToClient session (.serverEvent 450 "client_interrupt"))
  | .clientStop =>
    let closed := closeGatewaySession session sessions
    (closed.1, closed.2.1, ensureActs ++ closed.2.2)

/-- Sequential processing of browser messages over one session. -/
def runClientMessages (app : AppConfig) :
    List ClientMessage → GatewaySessionState → SessionsMap →
    GatewaySessionState × SessionsMap × List GatewayAction
  | [], s, ms => (s, ms, [])
  | msg :: rest, s, ms =>
    let step := handleClientMessage app msg s ms
    let tail := runClientMessages app rest step.1 step.2.1
    (tail.1, tail.2.1, step.2.2 ++ tail.2.2)

/-! ## Session lifecycle HTTP (`realtime.ts`, `POST /api/realtime/session`) -/

/-- Characters `encodeURIComponent` leaves unescaped:
`A-Z a-z 0-9 - _ . ! ~ * ( )` and the apostrophe (code 39). -/
def uriUnreserved (n : Nat) : Bool :=
  (65 ≤ n && n ≤ 90) || (97 ≤ n && n ≤ 122) || (48 ≤ n && n ≤ 57) ||
    n = 45 || n = 95 || n = 46 || n = 33 || n = 126 || n = 42 || n = 39 ||
    n = 40 || n = 41

/-- Upper-case hexadecimal digit. -/
def hexDigitChar (n : Nat) : Char :=
  Char.ofNat (if n < 10 then 48 + n else 55 + n)

/-- `encodeURIComponent`: unreserved characters pass through, everything else
is percent-encoded byte-wise over its UTF-8 encoding. -/
def encodeURIComponent (s : String) : String :=
  String.mk (s.data.flatMap fun c =>
    if uriUnreserved c.toNat then [c]
    else (utf8EncodeCodePoint c.toNat).flatMap fun b =>
      [Char.ofNat 37, hexDigitChar (b / 16), hexDigitChar (b % 16)])

/-- Response body of `POST /api/realtime/session`; `expiresAt` is kept as
epoch milliseconds (the source renders `Date.now() + 30 * 60 * 1000` as an
ISO string). -/
structure SessionCreateResponse : Type where
  sessionId : String
  wsPath : String
  expiresAt : Nat
deriving DecidableEq, Repr

/-- The `POST /api/realtime/session` handler after schema validation:
`uuid` is the value minted by `randomUUID()` and `now` the request time.
Returns the updated registry, the journal append calls made, and the
response body. -/
def postRealtimeSession (uuid : String) (now : Nat) (cfg : SessionCreateInput)
    (sessions : SessionsMap) :
    SessionsMap × List GatewayAction × SessionCreateResponse :=
  let session : GatewaySessionState :=
    { id := uuid, config := cfg, upstream := none, clientSocket := none }
  (setA uuid session sessions,
    [.journalAppend uuid "session_opened" { source := some "api", config := some cfg }],
    { sessionId := uuid
      wsPath := "/api/realtime/ws?sessionId=" ++ encodeURIComponent uuid
      expiresAt := now + 30 * 60 * 1000 })

/-! ## Statement-support definitions for the claims -/

/-- Payloads whose JSON-serialized round trip is the semantic identity
(buffers serialize to their `toJSON` object and `null` to `\x7b\x7d`, so both
are excluded). -/
def payloadJsonRoundTrips : JsRuntimeVal → Bool
  | .vjson _ => true
  | .vstr _ => true
  | _ => false

/-- Payloads whose raw (no-serialization) round trip is the semantic
identity: byte buffers come back as byte buffers. -/
def payloadRawRoundTrips : JsRuntimeVal → Bool
  | .vbytes _ => true
  | _ => false

/-- The semantically-equal decoded image of a payload after one
encode/decode round trip (meaningful on the combinations admitted by
`payloadJsonRoundTrips` / `payloadRawRoundTrips`). -/
def expectedRoundTripPayload (payload : JsRuntimeVal) (serialization : Nat) :
    DecodedPayload :=
  if serialization = JSON_SER then
    match payload with
    | .vjson v => .pjson v
    | .vstr s => .pjson (.jstr s)
    | .vnull => .pjson (.jobj .fnil)
    | .vbytes bs => .pjson (bufferToJson bs)
  else
    match payload with
    | .vbytes bs => .pbytes bs
    | .vstr s => .pbytes s
    | .vnull => .pbytes []
    | .vjson v => .pbytes (jsToString v)

/-- The derived-history function as the amended claim describes it: keep
`turn_completed` events, take the last `maxTurns`, and for each turn yield a
user entry then an assistant entry whenever the text survives trimming. -/
def specDerivedHistory (events : List SessionEvent) (maxTurns : Nat) :
    List ConversationMessage :=
  let turns := events.filter (fun e => decide (e.type = "turn_completed"))
  (turns.drop (turns.length - maxTurns)).flatMap turnMessages

/-- UTF-8 bytes of the JavaScript string `"韏"` followed by 49 NUL
characters: a genuine text payload whose byte rendering parses as a frame
(header byte `0xE9` declares header size 9, message-type byte `0x9F` is a
server-full-response with all flags). -/
def c10textInput : List Nat := [0xE9, 0x9F, 0x8F] ++ List.replicate 49 0

/-- File-level view of a run of appends against one session's two files
(used to characterize `runAppends`). -/
def appendFileEvents (sid : String) (st : StoreFileState) :
    List (String × EventPayload × Nat) → StoreFileState
  | [] => st
  | (type, payload, ts) :: rest =>
    appendFileEvents sid
      { events := st.events ++ [{ ts := ts, type := type, payload := payload }]
        meta := some (updateMeta sid st.meta type ts) }
      rest

/-- A `turn_completed` event whose user text is whitespace-only. -/
def c7blankTurn : SessionEvent :=
  { ts := 0, type := "turn_completed"
    payload := { userText := some " ", assistantText := some "ok" } }

/-- A `turn_completed` event with a plain user text. -/
def c7turn : SessionEvent :=
  { ts := 1, type := "turn_completed"
    payload := { userText := some "hi", assistantText := none } }

/-- Concrete operator configuration for witnesses. -/
def sampleApp : AppConfig :=
  { doubaoSpeaker := "s", doubaoBotName := "b", doubaoRecvTimeout := 60
    doubaoInputMod := "audio", doubaoOutputAudioFormat := "pcm"
    doubaoOutputSampleRate := 24000 }

/-- A live upstream client for witnesses. -/
def sampleUpstream : UpstreamClientState :=
  { sessionId := "sid", started := true, closed := false, wsConnected := true }

/-- A steady-state session (upstream attached) for the commit witness. -/
def c5session : GatewaySessionState :=
  { id := "sid", config := {}, upstream := some sampleUpstream, clientSocket := none }

/-- A session with an open browser socket and a live upstream, for the close
witness. -/
def c9session : GatewaySessionState :=
  { id := "sid", config := {}, upstream := some sampleUpstream
    clientSocket := some { readyState := WS_OPEN } }

/-- The frame the read loop extracts from `c10textInput`. -/
def c10frame : ParsedDoubaoMessage :=
  { protocolVersion := 14
    headerSize := 9
    messageType := 9
    messageTypeSpecificFlags := 15
    serialization := 8
    compression := 15
    event := some 0
    sequence := some 0
    sessionId := some []
    code := none
    payloadSize := 0
    payload := .pstr []
    payloadBytes := [] }

/-! # Theorems -/

/-! ## Modelled-library lemmas -/

theorem decNat_natEnc (n : Nat) (rest : List Nat) :
    decNat (natEnc n ++ rest) = some (n, rest) := by
  induction n with
  | zero => simp [natEnc, decNat]
  | succ k ih =>
    have h : natEnc (k + 1) ++ rest = 1 :: (natEnc k ++ rest) := by
      simp [natEnc, List.replicate_succ]
    rw [h]
    simp [decNat, ih]

theorem decStr_strEnc (s rest : List Nat) :
    decStr (strEnc s ++ rest) = some (s, rest) := by
  simp [strEnc, decStr, List.append_assoc, decNat_natEnc, List.take_left, List.drop_left]

theorem decInt_intEnc (i : Int) (rest : List Nat) :
    decInt (intEnc i ++ rest) = some (i, rest) := by
  cases i <;> simp [intEnc, decInt, decNat_natEnc]

mutual
theorem decVal_encVal : ∀ (v : JsVal) (fuel : Nat) (rest : List Nat),
    JsVal.nodes v ≤ fuel → decVal fuel (encVal v ++ rest) = some (v, rest)
  | v, 0, _, h => by
    exfalso
    cases v <;> simp only [JsVal.nodes] at h <;> omega
  | .jnull, _ + 1, rest, _ => by simp [encVal, decVal]
  | .jbool b, _ + 1, rest, _ => by cases b <;> simp [encVal, decVal]
  | .jnum i, _ + 1, rest, _ => by simp [encVal, decVal, decInt_intEnc]
  | .jstr s, _ + 1, rest, _ => by simp [encVal, decVal, decStr_strEnc]
  | .jarr xs, fuel + 1, rest, h => by
    have h' : JsItems.nodes xs ≤ fuel := by simp only [JsVal.nodes] at h; omega
    simp [encVal, decVal, decItems_encItems xs fuel rest h']
  | .jobj fs, fuel + 1, rest, h => by
    have h' : JsFields.nodes fs ≤ fuel := by simp only [JsVal.nodes] at h; omega
    simp [encVal, decVal, decFields_encFields fs fuel rest h']

theorem decItems_encItems : ∀ (xs : JsItems) (fuel : Nat) (rest : List Nat),
    JsItems.nodes xs ≤ fuel → decItems fuel (encItems xs ++ rest) = some (xs, rest)
  | xs, 0, _, h => by
    exfalso
    cases xs <;> simp only [JsItems.nodes] at h <;> omega
  | .inil, _ + 1, rest, _ => by simp [encItems, decItems]
  | .icons v xs, fuel + 1, rest, h => by
    have hv : JsVal.nodes v ≤ fuel := by simp only [JsItems.nodes] at h; omega
    have hxs : JsItems.nodes xs ≤ fuel := by simp only [JsItems.nodes] at h; omega
    simp [encItems, decItems, List.append_assoc,
      decVal_encVal v fuel (encItems xs ++ rest) hv,
      decItems_encItems xs fuel rest hxs]

theorem decFields_encFields : ∀ (fs : JsFields) (fuel : Nat) (rest : List Nat),
    JsFields.nodes fs ≤ fuel → decFields fuel (encFields fs ++ rest) = some (fs, rest)
  | fs, 0, _, h => by
    exfalso
    cases fs <;> simp only [JsFields.nodes] at h <;> omega
  | .fnil, _ + 1, rest, _ => by simp [encFields, decFields]
  | .fcons k v fs, fuel + 1, rest, h => by
    have hv : JsVal.nodes v ≤ fuel := by simp only [JsFields.nodes] at h; omega
    have hfs : JsFields.nodes fs ≤ fuel := by simp only [JsFields.nodes] at h; omega
    simp [encFields, decFields, List.append_assoc, decStr_strEnc,
      decVal_encVal v fuel (encFields fs ++ rest) hv,
      decFields_encFields fs fuel rest hfs]
end

mutual
theorem nodes_le_encVal : ∀ v : JsVal, JsVal.nodes v ≤ (encVal v).length
  | .jnull => by simp [JsVal.nodes, encVal]
  | .jbool b => by simp [JsVal.nodes, encVal]
  | .jnum i => by simp [JsVal.nodes, encVal]
  | .jstr s => by simp [JsVal.nodes, encVal]
  | .jarr xs => by
    have := nodes_le_encItems xs
    simp [JsVal.nodes, encVal]; omega
  | .jobj fs => by
    have := nodes_le_encFields fs
    simp [JsVal.nodes, encVal]; omega

theorem nodes_le_encItems : ∀ xs : JsItems, JsItems.nodes xs ≤ (encItems xs).length
  | .inil => by simp [JsItems.nodes, encItems]
  | .icons v xs => by
    have hv := nodes_le_encVal v
    have hxs := nodes_le_encItems xs
    simp [JsItems.nodes, encItems]; omega

theorem nodes_le_encFields : ∀ fs : JsFields, JsFields.nodes fs ≤ (encFields fs).length
  | .fnil => by simp [JsFields.nodes, encFields]
  | .fcons k v fs => by
    have hv := nodes_le_encVal v
    have hfs := nodes_le_encFields fs
    simp [JsFields.nodes, encFields]; omega
end

/-- The modelled JSON library satisfies the parse/stringify round trip. -/
theorem jsonParse_stringify (v : JsVal) :
    jsonParseBytes (jsonStringifyBytes v) = some v := by
  unfold jsonParseBytes jsonStringifyBytes
  have h := decVal_encVal v ((encVal v).length + 1) []
    (le_trans (nodes_le_encVal v) (Nat.le_succ _))
  rw [List.append_nil] at h
  simp [h]

/-- The modelled gzip library satisfies the gunzip/gzip round trip. -/
theorem gunzip_gzip (bs : List Nat) : gunzipSyncM (gzipSyncM bs) = some bs := rfl

theorem gzip_length_pos (bs : List Nat) : 0 < (gzipSyncM bs).length := by
  simp [gzipSyncM]

/-! ## Byte-level lemmas -/

theorem uint32be_length (n : Nat) : (uint32be n).length = 4 := rfl

theorem drop4_uint32be (n : Nat) (rest : List Nat) :
    (uint32be n ++ rest).drop 4 = rest := by
  simp [uint32be]

theorem length_uint32be_append (n : Nat) (rest : List Nat) :
    (uint32be n ++ rest).length = 4 + rest.length := by
  simp [uint32be]
  omega

theorem readUInt32At_uint32be (n : Nat) (rest : List Nat) (h : n < 2 ^ 32) :
    readUInt32At (uint32be n ++ rest) 0 = n := by
  simp [uint32be, readUInt32At]
  omega

theorem readUInt32BE_uint32be (n : Nat) (rest : List Nat) (h : n < 2 ^ 32) :
    readUInt32BE (uint32be n ++ rest) 0 = .ok n := by
  rw [readUInt32BE, if_pos (by rw [length_uint32be_append]; omega)]
  rw [readUInt32At_uint32be n rest h]

theorem readInt32BE_allocInt32 (n : Nat) (rest : List Nat) (h : n < 2 ^ 31) :
    readInt32BE (allocInt32 n ++ rest) 0 = .ok (n : Int) := by
  have hmod : n % 2 ^ 32 = n := Nat.mod_eq_of_lt (by omega)
  rw [allocInt32, hmod, readInt32BE,
    if_pos (by rw [length_uint32be_append]; omega)]
  simp only [readUInt32At_uint32be n rest (by omega : n < 2 ^ 32)]
  rw [if_pos h]

theorem headerByte_split :
    ∀ a, a < 16 → ∀ b, b < 16 →
      (a <<< 4 ||| b) % 256 / 16 = a ∧ (a <<< 4 ||| b) % 256 % 16 = b := by
  decide

/-! ## Association-list lemmas -/

theorem lookupA_setA {α : Type} (key : String) (v : α) (l : List (String × α)) :
    lookupA (setA key v l) key = some v := by
  simp [setA, lookupA]

theorem lookupA_eraseA {α : Type} (key : String) (l : List (String × α)) :
    lookupA (eraseA key l) key = none := by
  induction l with
  | nil => simp [eraseA, lookupA]
  | cons p rest ih =>
    by_cases h : p.1 = key
    · simpa [eraseA, h] using ih
    · simpa [eraseA, lookupA, h] using ih

theorem lookupD_setA {α : Type} (key : String) (v d : α) (l : List (String × α)) :
    lookupD (setA key v l) key d = v := by
  simp [lookupD, lookupA_setA]

theorem trimNonempty_ne_empty (s : String) (h : trimNonempty s = true) : s ≠ "" := by
  intro hs
  subst hs
  simp [trimNonempty] at h

/-! ## Decoder safety (C2) -/

theorem readUInt32BE_isOk (bs : List Nat) (off : Nat) (h : off + 4 ≤ bs.length) :
    ∃ v, readUInt32BE bs off = .ok v := by
  rw [readUInt32BE, if_pos h]
  exact ⟨_, rfl⟩

theorem readInt32BE_isOk (bs : List Nat) (off : Nat) (h : off + 4 ≤ bs.length) :
    ∃ v, readInt32BE bs off = .ok v := by
  rw [readInt32BE, if_pos h]
  exact ⟨_, rfl⟩

/-- Every guarded read in the shared server-frame tail succeeds: the length
checks preceding each `readInt32BE`/`readUInt32BE` keep the offsets in
bounds. -/
theorem finishServerFrame_total (pv hs mt fl ser comp : Nat) (payloadView : List Nat)
    (sequence event : Option Nat) (offset : Nat) :
    ∃ r, finishServerFrame pv hs mt fl ser comp payloadView sequence event offset = .ok r := by
  simp only [finishServerFrame]
  split
  · exact ⟨none, rfl⟩
  · rename_i h1
    obtain ⟨sessionIdSize, hread⟩ := readInt32BE_isOk (payloadView.drop offset) 0 (by omega)
    simp only [hread]
    split
    · exact ⟨none, rfl⟩
    · rename_i hguard
      obtain ⟨payloadSize, hread2⟩ :=
        readUInt32BE_isOk ((payloadView.drop offset).drop (4 + sessionIdSize.toNat)) 0
          (by simp only [List.length_drop] at h1 hguard ⊢; omega)
      simp only [hread2]
      exact ⟨_, rfl⟩

/-- Totality of the decoder: every branch either returns early or reaches a
read whose preceding length check keeps it in bounds. -/
theorem parseDoubaoMessage_total (raw : RawInput) :
    ∃ r, parseDoubaoMessage raw = .ok r := by
  cases raw with
  | str s => exact ⟨none, rfl⟩
  | buf bs =>
    simp only [parseDoubaoMessage]
    split
    · exact ⟨none, rfl⟩
    · split
      · exact ⟨none, rfl⟩
      · split
        · split
          · split
            · exact ⟨none, rfl⟩
            · rename_i hlen4
              obtain ⟨seq, hseq⟩ :=
                readUInt32BE_isOk (bs.drop (bs.getD 0 0 % 16 * 4)) 0 (by omega)
              simp only [hseq]
              split
              · split
                · exact ⟨none, rfl⟩
                · rename_i hlen8
                  obtain ⟨ev, hev⟩ :=
                    readUInt32BE_isOk (bs.drop (bs.getD 0 0 % 16 * 4)) 4 (by omega)
                  simp only [hev]
                  exact finishServerFrame_total ..
              · exact finishServerFrame_total ..
          · split
            · split
              · exact ⟨none, rfl⟩
              · rename_i hlen4
                obtain ⟨ev, hev⟩ :=
                  readUInt32BE_isOk (bs.drop (bs.getD 0 0 % 16 * 4)) 0 (by omega)
                simp only [hev]
                exact finishServerFrame_total ..
            · exact finishServerFrame_total ..
        · split
          · split
            · exact ⟨none, rfl⟩
            · rename_i hlen8
              obtain ⟨code, hcode⟩ :=
                readUInt32BE_isOk (bs.drop (bs.getD 0 0 % 16 * 4)) 0 (by omega)
              simp only [hcode]
              obtain ⟨ps, hps⟩ :=
                readUInt32BE_isOk (bs.drop (bs.getD 0 0 % 16 * 4)) 4 (by omega)
              simp only [hps]
              exact ⟨_, rfl⟩
          · exact ⟨none, rfl⟩

/-- C2: for every input the decoder never throws — it returns a frame or
nothing.  In particular: inputs shorter than the 4-byte header yield nothing;
message types other than server-full-response, server-ack and
server-error-response yield nothing; gzip-flagged payloads that fail to
decompress surface the raw bytes; JSON-flagged payloads that fail to parse
surface the UTF-8 text. -/
theorem c2_decoder_never_throws :
    (∀ raw : RawInput, ∃ r, parseDoubaoMessage raw = .ok r) ∧
    (∀ bs : List Nat, bs.length < 4 → parseDoubaoMessage (.buf bs) = .ok none) ∧
    (∀ bs : List Nat, bs.getD 1 0 / 16 ≠ SERVER_FULL_RESPONSE →
      bs.getD 1 0 / 16 ≠ SERVER_ACK → bs.getD 1 0 / 16 ≠ SERVER_ERROR_RESPONSE →
      parseDoubaoMessage (.buf bs) = .ok none) ∧
    (∀ (bs : List Nat) (serialization : Nat), 0 < bs.length → gunzipSyncM bs = none →
      decodePayload bs serialization GZIP = .pbytes bs) ∧
    (∀ bs : List Nat, jsonParseBytes bs = none →
      decodePayload bs JSON_SER NO_COMPRESSION = .pstr bs) := by
  refine ⟨parseDoubaoMessage_total, ?_, ?_, ?_, ?_⟩
  · intro bs h
    simp only [parseDoubaoMessage]
    rw [if_pos h]
  · intro bs h9 h11 h15
    simp only [parseDoubaoMessage]
    split
    · rfl
    · split
      · rfl
      · split
        · rename_i hc
          exact absurd hc (by push_neg; exact ⟨h9, h11⟩)
        · rfl
  · intro bs serialization hpos hgz
    simp [decodePayload, hpos, hgz]
  · intro bs hjson
    simp [decodePayload, decodeSerialized, hjson, GZIP, NO_COMPRESSION, JSON_SER]

/-- C2 witness: the enumerated behaviors at concrete inputs. -/
theorem c2_decoder_never_throws_witness :
    parseDoubaoMessage (.buf [1, 2, 3]) = .ok none ∧
    parseDoubaoMessage (.buf [0, 0, 0, 0]) = .ok none ∧
    decodePayload [7] NO_SERIALIZATION GZIP = .pbytes [7] ∧
    decodePayload [9] JSON_SER NO_COMPRESSION = .pstr [9] :=
  ⟨c2_decoder_never_throws.2.1 [1, 2, 3] (by decide),
   c2_decoder_never_throws.2.2.1 [0, 0, 0, 0] (by decide) (by decide) (by decide),
   c2_decoder_never_throws.2.2.2.1 [7] NO_SERIALIZATION (by decide) (by rfl),
   c2_decoder_never_throws.2.2.2.2 [9] (by rfl)⟩

/-! ## C10: string inputs and the read loop -/

/-- C10 (amended): `parseDoubaoMessage` returns nothing for every string
input, before inspecting any byte.  (The read loop, however, first converts
text data to a buffer via `toBuffer`, so a text frame whose UTF-8 bytes form
a valid server frame is not discarded — see the counterexample.) -/
theorem c10_string_input_returns_null (s : List Nat) :
    parseDoubaoMessage (.str s) = .ok none := rfl

/-- C10 counterexample: the read loop converts strings to buffers before
parsing (`parseDoubaoMessage(toBuffer(data))`), so this genuine text input —
the UTF-8 bytes of a one-character CJK string followed by 49 NULs — produces
a parsed frame instead of being discarded. -/
theorem c10_text_frame_counterexample :
    readLoopParse (.str c10textInput) = .ok (some c10frame) := by rfl

/-! ## C3: event-code field vs the 0b0100 flag -/

/-- C3 (amended): the encoder writes the 4-byte big-endian event code
immediately after the 4-byte header unconditionally — for every flag value,
not only when flags include `0b0100`. -/
theorem c3_event_always_present (event : Nat) (sessionId : Option (List Nat))
    (payload : JsRuntimeVal) (messageType flags serialization compression : Nat) :
    (createDoubaoFrame event sessionId payload messageType flags serialization
        compression).take 8 =
      generateHeader messageType flags serialization compression ++ uint32be event := by
  unfold createDoubaoFrame
  cases sessionId <;> simp [generateHeader, uint32be]

/-- C3 counterexample: a frame encoded with flags `NO_SEQUENCE` (no `0b0100`
bit) still contains the 4-byte event code after the header, and is not equal
to the event-less layout the claim describes. -/
theorem c3_event_flag_counterexample :
    createDoubaoFrame 7 none .vnull CLIENT_FULL_REQUEST NO_SEQUENCE JSON_SER
        NO_COMPRESSION =
      generateHeader CLIENT_FULL_REQUEST NO_SEQUENCE JSON_SER NO_COMPRESSION ++
        uint32be 7 ++ uint32be 2 ++ encodePayload .vnull JSON_SER NO_COMPRESSION ∧
    createDoubaoFrame 7 none .vnull CLIENT_FULL_REQUEST NO_SEQUENCE JSON_SER
        NO_COMPRESSION ≠
      generateHeader CLIENT_FULL_REQUEST NO_SEQUENCE JSON_SER NO_COMPRESSION ++
        uint32be 2 ++ encodePayload .vnull JSON_SER NO_COMPRESSION := by
  constructor
  · rfl
  · decide

/-! ## C6: meta summary maintenance -/

theorem foldl_last {α β : Type} (f : α → β) (l : List α) : ∀ a : α,
    l.foldl (fun _ x => f x) (f a) = f ((a :: l).getLast (List.cons_ne_nil a l)) := by
  induction l with
  | nil => intro a; simp
  | cons b t ih =>
    intro a
    rw [List.getLast_cons (List.cons_ne_nil b t)]
    simpa using ih b

/-- `runAppends` against one session only rewrites that session's pair of
files, by the file-level fold. -/
theorem runAppends_lookup (sid : String) (appends : List (String × EventPayload × Nat)) :
    ∀ files : StoreFiles,
      lookupD (runAppends true sid files appends) sid emptyFileState =
        appendFileEvents sid (lookupD files sid emptyFileState) appends := by
  induction appends with
  | nil => intro files; simp [runAppends, appendFileEvents]
  | cons a rest ih =>
    intro files
    obtain ⟨type, payload, ts⟩ := a
    rw [runAppends, appendFileEvents]
    rw [ih]
    simp [appendEvent, lookupD_setA]

/-- `updateMeta` over an existing meta: stamp `updatedAt`, bump the two
counters by the type tests. -/
theorem updateMeta_some (sid : String) (m : SessionMeta) (type : String) (ts : Nat) :
    updateMeta sid (some m) type ts =
      { sessionId := m.sessionId
        createdAt := m.createdAt
        updatedAt := ts
        turns := m.turns + (if type = "turn_completed" then 1 else 0)
        errors := m.errors + (if typeHasError type then 1 else 0) } := by
  simp only [updateMeta]
  by_cases ht : type = "turn_completed" <;> by_cases he : typeHasError type = true
  · rw [if_pos ht, if_pos he, if_pos ht, if_pos he]
  · rw [if_pos ht, if_neg he, if_pos ht, if_neg he]
    simp
  · rw [if_neg ht, if_pos he, if_neg ht, if_pos he]
    simp
  · rw [if_neg ht, if_neg he, if_neg ht, if_neg he]
    simp

/-- `updateMeta` creating the meta on first append. -/
theorem updateMeta_none (sid : String) (type : String) (ts : Nat) :
    updateMeta sid none type ts =
      { sessionId := sid
        createdAt := ts
        updatedAt := ts
        turns := if type = "turn_completed" then 1 else 0
        errors := if typeHasError type then 1 else 0 } := by
  simp only [updateMeta]
  by_cases ht : type = "turn_completed" <;> by_cases he : typeHasError type = true
  · rw [if_pos ht, if_pos he, if_pos ht, if_pos he]
  · rw [if_pos ht, if_neg he, if_pos ht, if_neg he]
  · rw [if_neg ht, if_pos he, if_neg ht, if_pos he]
  · rw [if_neg ht, if_neg he, if_neg ht, if_neg he]

/-- Characterization of the file-level fold starting from an existing meta:
`createdAt` and `sessionId` are stable, `updatedAt` tracks the latest
timestamp, `turns` counts `turn_completed` appends and `errors` counts
appends whose type contains `"error"`. -/
theorem appendFileEvents_meta (sid : String)
    (appends : List (String × EventPayload × Nat)) : ∀ (st : StoreFileState) (m : SessionMeta),
    st.meta = some m →
    (appendFileEvents sid st appends).meta =
      some { sessionId := m.sessionId
             createdAt := m.createdAt
             updatedAt := appends.foldl (fun _ a => a.2.2) m.updatedAt
             turns := m.turns + appends.countP (fun a => decide (a.1 = "turn_completed"))
             errors := m.errors + appends.countP (fun a => typeHasError a.1) } := by
  induction appends with
  | nil => intro st m hm; simp [appendFileEvents, hm]
  | cons a rest ih =>
    intro st m hm
    obtain ⟨type, payload, ts⟩ := a
    rw [appendFileEvents]
    rw [ih _ (updateMeta sid st.meta type ts) rfl]
    rw [hm, updateMeta_some]
    simp only [Option.some.injEq, SessionMeta.mk.injEq, List.countP_cons, List.foldl_cons,
      decide_eq_true_eq]
    refine ⟨?_, ?_, ?_, ?_, ?_⟩ <;> first | trivial | omega

/-- The events file accumulates exactly the appended lines. -/
theorem appendFileEvents_events (sid : String)
    (appends : List (String × EventPayload × Nat)) : ∀ st : StoreFileState,
    (appendFileEvents sid st appends).events =
      st.events ++ appends.map (fun a => { ts := a.2.2, type := a.1, payload := a.2.1 }) := by
  induction appends with
  | nil => intro st; simp [appendFileEvents]
  | cons a rest ih =>
    intro st
    obtain ⟨type, payload, ts⟩ := a
    rw [appendFileEvents, ih]
    simp

/-- C6: with saving on, the meta sidecar is created on the first append and
thereafter reports `createdAt` = first append timestamp, `updatedAt` = last
append timestamp, `turns` = number of `turn_completed` appends, `errors` =
number of appends whose type contains `"error"`; the events file holds one
line per append. -/
theorem c6_meta_summary (sid : String) (appends : List (String × EventPayload × Nat))
    (h : appends ≠ []) :
    (lookupD (runAppends true sid [] appends) sid emptyFileState).meta =
      some { sessionId := sid
             createdAt := (appends.head h).2.2
             updatedAt := (appends.getLast h).2.2
             turns := appends.countP (fun a => decide (a.1 = "turn_completed"))
             errors := appends.countP (fun a => typeHasError a.1) } ∧
    (lookupD (runAppends true sid [] appends) sid emptyFileState).events =
      appends.map (fun a => { ts := a.2.2, type := a.1, payload := a.2.1 }) := by
  constructor
  · rw [runAppends_lookup]
    cases appends with
    | nil => exact absurd rfl h
    | cons a rest =>
      obtain ⟨type, payload, ts⟩ := a
      rw [appendFileEvents]
      rw [appendFileEvents_meta sid rest _ (updateMeta sid emptyFileState.meta type ts) rfl]
      rw [show emptyFileState.meta = none from rfl, updateMeta_none]
      simp only [Option.some.injEq, SessionMeta.mk.injEq, List.countP_cons, List.head_cons,
        decide_eq_true_eq]
      refine ⟨?_, ?_, ?_, ?_, ?_⟩
      · trivial
      · trivial
      · exact foldl_last (fun (a : String × EventPayload × Nat) => a.2.2) rest (type, payload, ts)
      · omega
      · omega
  · rw [runAppends_lookup, appendFileEvents_events]
    simp [emptyFileState, lookupD, lookupA]

/-- C6 witness: two concrete appends. -/
theorem c6_meta_summary_witness :
    (lookupD (runAppends true "s" []
        [("turn_completed", {}, 5), ("turn_error", {}, 9)]) "s" emptyFileState).meta =
      some { sessionId := "s", createdAt := 5, updatedAt := 9, turns := 1, errors := 1 } := by
  have h := (c6_meta_summary "s" [("turn_completed", {}, 5), ("turn_error", {}, 9)]
    (by simp)).1
  simpa using h

/-! ## C7: derived conversation history -/

/-- C7 (amended): for every turn bound `N ≥ 1` the derived history is the
last `N` `turn_completed` events in order, each yielding a user entry when
`payload.userText` has a non-whitespace character and then an assistant entry
when `payload.assistantText` does; other event types contribute nothing and
no entry carries the empty string. -/
theorem c7_history_amended (events : List SessionEvent) (maxTurns : Nat)
    (h : 1 ≤ maxTurns) :
    conversationFromEvents events maxTurns = specDerivedHistory events maxTurns ∧
    conversationFromEvents events maxTurns =
      conversationFromEvents
        (events.filter (fun e => decide (e.type = "turn_completed"))) maxTurns ∧
    ∀ m ∈ conversationFromEvents events maxTurns, m.text ≠ "" := by
  refine ⟨?_, ?_, ?_⟩
  · simp only [conversationFromEvents, specDerivedHistory, sliceLast]
    rw [if_neg (by omega)]
  · simp only [conversationFromEvents, List.filter_filter]
    simp
  · intro m hm
    simp only [conversationFromEvents, List.mem_flatMap] at hm
    obtain ⟨turn, _, hmem⟩ := hm
    simp only [turnMessages, List.mem_append] at hmem
    rcases hmem with hmem | hmem
    · split at hmem
      · rename_i hc
        simp only [List.mem_singleton] at hmem
        subst hmem
        exact trimNonempty_ne_empty _ hc
      · simp at hmem
    · split at hmem
      · rename_i hc
        simp only [List.mem_singleton] at hmem
        subst hmem
        exact trimNonempty_ne_empty _ hc
      · simp at hmem

/-- C7 witness: the amended statement applied at a concrete event list and
the default turn bound. -/
theorem c7_history_amended_witness :
    1 ≤ 12 ∧ conversationFromEvents [c7turn] 12 = specDerivedHistory [c7turn] 12 :=
  ⟨by decide, (c7_history_amended [c7turn] 12 (by decide)).1⟩

/-- C7 counterexample: the claim as stated fails twice on the code — a
whitespace-only `userText` is non-empty yet yields no user entry (the code
tests the trimmed text), and turn bound `N = 0` considers all turns
(`slice(-0)` is `slice(0)`), not the last zero. -/
theorem c7_history_counterexample :
    conversationFromEvents [c7blankTurn] 12 = [{ role := .assistant, text := "ok" }] ∧
    conversationFromEvents [c7blankTurn] 12 ≠
      [{ role := .user, text := " " }, { role := .assistant, text := "ok" }] ∧
    conversationFromEvents [c7turn] 0 = [{ role := .user, text := "hi" }] := by
  refine ⟨?_, ?_, ?_⟩ <;> first | rfl | decide

/-! ## C8: save-history toggle off -/

/-- C8: with the save-history toggle disabled, appending is the identity on
the store (for any sequence of mutations across any sessions), listing is
empty, event fetch is empty, and the history detail route answers 404
`session_not_found` for every id. -/
theorem c8_save_history_off (files : StoreFiles) (sessionId type : String)
    (payload : EventPayload) (ts : Nat)
    (muts : List (String × String × EventPayload × Nat)) (sid2 : String) :
    appendEvent false files sessionId type payload ts = files ∧
    muts.foldl (fun fs m => appendEvent false fs m.1 m.2.1 m.2.2.1 m.2.2.2) files = files ∧
    listSessions false files = [] ∧
    getSessionEvents false files sid2 = [] ∧
    historyDetailRoute false files sid2 = .notFound := by
  refine ⟨rfl, ?_, rfl, rfl, rfl⟩
  induction muts with
  | nil => rfl
  | cons m rest ih => exact ih

/-! ## C5: audio commit tail -/

theorem range_flatMap_singleton {α : Type} (x : α) (n : Nat) :
    (List.range n).flatMap (fun _ => [x]) = List.replicate n x := by
  induction n with
  | zero => rfl
  | succ k ih =>
    rw [List.range_succ, List.flatMap_append, ih, List.replicate_succ']
    rfl

/-- A session whose upstream field already holds `u` is unchanged by
re-storing it. -/
theorem session_upstream_eta (s : GatewaySessionState) (u : UpstreamClientState)
    (h : s.upstream = some u) : { s with upstream := some u } = s := by
  cases s
  simp_all

/-- Message processing distributes over concatenation of the inbound
message list. -/
theorem runClientMessages_append (app : AppConfig) (l1 l2 : List ClientMessage) :
    ∀ (s : GatewaySessionState) (ms : SessionsMap),
    runClientMessages app (l1 ++ l2) s ms =
      ((runClientMessages app l2 (runClientMessages app l1 s ms).1
          (runClientMessages app l1 s ms).2.1).1,
       (runClientMessages app l2 (runClientMessages app l1 s ms).1
          (runClientMessages app l1 s ms).2.1).2.1,
       (runClientMessages app l1 s ms).2.2 ++
         (runClientMessages app l2 (runClientMessages app l1 s ms).1
            (runClientMessages app l1 s ms).2.1).2.2) := by
  induction l1 with
  | nil => intro s ms; simp [runClientMessages]
  | cons msg rest ih =>
    intro s ms
    simp only [List.cons_append, runClientMessages, List.append_eq]
    simp only [ih, List.append_assoc]

/-- Forwarded audio chunks leave the session record and the registry
unchanged once an upstream is attached. -/
theorem runAudioAppends_state (app : AppConfig) (chunks : List (List Nat)) :
    ∀ (s : GatewaySessionState) (ms : SessionsMap) (u : UpstreamClientState),
    s.upstream = some u →
    (runClientMessages app (chunks.map ClientMessage.clientAudioAppend) s ms).1 = s ∧
    (runClientMessages app (chunks.map ClientMessage.clientAudioAppend) s ms).2.1 = ms := by
  induction chunks with
  | nil => intro s ms u hup; exact ⟨rfl, rfl⟩
  | cons c rest ih =>
    intro s ms u hup
    simp only [List.map_cons, runClientMessages, handleClientMessage, ensureUpstreamActions,
      hup]
    rw [session_upstream_eta s u hup]
    exact ih s ms u hup

/-- C5: upon `client.audio.commit` (upstream attached) the relay sends
exactly twelve consecutive frames, each wrapping a 3200-byte all-zero audio
chunk, and then journals exactly one `input_audio_committed` event; after a
run of preceding `client.audio.append` messages the tail actions follow all
previously produced actions in order. -/
theorem c5_commit_tail (app : AppConfig) (session : GatewaySessionState)
    (sessions : SessionsMap) (u : UpstreamClientState)
    (hup : session.upstream = some u) :
    handleClientMessage app .clientAudioCommit session sessions =
      (session, sessions,
        List.replicate 12
          (GatewayAction.upstreamSend (clientAudioFrame session.id (List.replicate 3200 0))) ++
          [.journalAppend session.id "input_audio_committed" {}]) ∧
    ∀ priorChunks : List (List Nat),
      (runClientMessages app
        (priorChunks.map ClientMessage.clientAudioAppend ++ [.clientAudioCommit])
        session sessions).2.2 =
      (runClientMessages app (priorChunks.map ClientMessage.clientAudioAppend)
        session sessions).2.2 ++
        (List.replicate 12
          (GatewayAction.upstreamSend (clientAudioFrame session.id (List.replicate 3200 0))) ++
          [.journalAppend session.id "input_audio_committed" {}]) := by
  have hcommit : handleClientMessage app .clientAudioCommit session sessions =
      (session, sessions,
        List.replicate 12
          (GatewayAction.upstreamSend (clientAudioFrame session.id (List.replicate 3200 0))) ++
          [.journalAppend session.id "input_audio_committed" {}]) := by
    simp only [handleClientMessage, ensureUpstreamActions, hup]
    rw [session_upstream_eta session u hup]
    rw [show sendAudioChunkFrames session.id (List.replicate 3200 0) =
      [clientAudioFrame session.id (List.replicate 3200 0)] by
        simp only [sendAudioChunkFrames, List.length_replicate]
        rw [if_neg (by omega)]]
    simp only [List.map_cons, List.map_nil]
    rw [range_flatMap_singleton]
    simp only [List.nil_append]
  refine ⟨hcommit, ?_⟩
  intro priorChunks
  rw [runClientMessages_append]
  obtain ⟨hs, hms⟩ := runAudioAppends_state app priorChunks session sessions u hup
  rw [hs, hms]
  have hrun1 : (runClientMessages app [ClientMessage.clientAudioCommit] session sessions).2.2 =
      (handleClientMessage app .clientAudioCommit session sessions).2.2 ++ [] := rfl
  rw [hrun1, hcommit, List.append_nil]

/-- C5 witness: the commit handler at a concrete steady-state session. -/
theorem c5_commit_tail_witness :
    handleClientMessage sampleApp .clientAudioCommit c5session [] =
      (c5session, [],
        List.replicate 12
          (GatewayAction.upstreamSend (clientAudioFrame c5session.id (List.replicate 3200 0))) ++
          [.journalAppend c5session.id "input_audio_committed" {}]) :=
  (c5_commit_tail sampleApp c5session [] sampleUpstream rfl).1

/-! ## C9: close idempotence -/

/-- C9: the first close of a live session closes the browser socket with
code 1000, closes the upstream client (finish-session, finish-connection,
socket close), removes the record and journals one `session_closed`; closing
again is a no-op with no actions; and the upstream client's own `close()` is
a no-op when already closed. -/
theorem c9_close_idempotent (session : GatewaySessionState) (sessions : SessionsMap)
    (u : UpstreamClientState) (sock : ClientSocketState)
    (hup : session.upstream = some u) (hclosed : u.closed = false)
    (hsock : session.clientSocket = some sock) (hopen : sock.readyState = WS_OPEN) :
    closeGatewaySession session sessions =
      ({ session with clientSocket := none, upstream := none },
        eraseA session.id sessions,
        [GatewayAction.clientClose 1000,
         .upstreamSend (finishSessionFrame u.sessionId),
         .upstreamSend finishConnectionFrame] ++
          (if u.wsConnected then [GatewayAction.upstreamSocketClose] else []) ++
          [.journalAppend session.id "session_closed" {}]) ∧
    (∀ (s : GatewaySessionState) (ms : SessionsMap),
      closeGatewaySession (closeGatewaySession s ms).1 (closeGatewaySession s ms).2.1 =
        ((closeGatewaySession s ms).1, (closeGatewaySession s ms).2.1, [])) ∧
    (∀ c : UpstreamClientState, c.closed = true → doubaoClientClose c = (c, [])) := by
  refine ⟨?_, ?_, ?_⟩
  · simp [closeGatewaySession, doubaoClientClose, hup, hsock, hopen, hclosed]
  · intro s ms
    by_cases hg : (lookupA ms s.id).isNone ∧ s.upstream.isNone ∧ s.clientSocket.isNone
    · have hfirst : closeGatewaySession s ms = (s, ms, []) := by
        rw [closeGatewaySession, if_pos hg]
      rw [hfirst]
      exact hfirst
    · have h1 : (closeGatewaySession s ms).1.id = s.id := by
        rw [closeGatewaySession, if_neg hg]
      have h2 : (closeGatewaySession s ms).1.upstream = none := by
        rw [closeGatewaySession, if_neg hg]
      have h3 : (closeGatewaySession s ms).1.clientSocket = none := by
        rw [closeGatewaySession, if_neg hg]
      have h4 : (closeGatewaySession s ms).2.1 = eraseA s.id ms := by
        rw [closeGatewaySession, if_neg hg]
      rw [closeGatewaySession]
      rw [if_pos ⟨by simp [h1, h4, lookupA_eraseA], by simp [h2], by simp [h3]⟩]
  · intro c hc
    simp [doubaoClientClose, hc]

/-- C9 witness: the close path at a concrete live session. -/
theorem c9_close_idempotent_witness :
    closeGatewaySession c9session [] =
      ({ c9session with clientSocket := none, upstream := none },
        eraseA c9session.id [],
        [GatewayAction.clientClose 1000,
         .upstreamSend (finishSessionFrame sampleUpstream.sessionId),
         .upstreamSend finishConnectionFrame] ++
          (if sampleUpstream.wsConnected then [GatewayAction.upstreamSocketClose] else []) ++
          [.journalAppend c9session.id "session_closed" {}]) :=
  (c9_close_idempotent c9session [] sampleUpstream { readyState := WS_OPEN }
    rfl rfl rfl rfl).1

/-! ## C4: session mint endpoint -/

theorem encodeURIComponent_of_unreserved (s : String)
    (h : ∀ c ∈ s.data, uriUnreserved c.toNat = true) : encodeURIComponent s = s := by
  cases s with
  | mk data =>
    unfold encodeURIComponent
    simp only
    congr 1
    induction data with
    | nil => rfl
    | cons c rest ih =>
      simp only [List.flatMap_cons]
      rw [if_pos (h c (by simp))]
      rw [ih (fun c hc => h c (by simp [hc]))]
      rfl

/-- C4 (amended): for every validated session-config body the mint handler
registers a record with no sockets under the fresh id, journals exactly one
`session_opened` with source `"api"` and the config, and returns the id (a
non-empty string), a `wsPath` equal to `"/api/realtime/ws?sessionId="`
followed by the URL-encoding of the id (the id itself for a UUID, whose
characters are unreserved), and an expiry of the request time plus 30
minutes. -/
theorem c4_post_session_amended (uuid : String) (now : Nat) (cfg : SessionCreateInput)
    (sessions : SessionsMap) (hne : uuid ≠ "")
    (hchars : ∀ c ∈ uuid.data, uriUnreserved c.toNat = true) :
    (postRealtimeSession uuid now cfg sessions).2.2.sessionId = uuid ∧
    (postRealtimeSession uuid now cfg sessions).2.2.sessionId ≠ "" ∧
    (postRealtimeSession uuid now cfg sessions).2.2.wsPath =
      "/api/realtime/ws?sessionId=" ++ encodeURIComponent uuid ∧
    (postRealtimeSession uuid now cfg sessions).2.2.wsPath =
      "/api/realtime/ws?sessionId=" ++ uuid ∧
    (postRealtimeSession uuid now cfg sessions).2.2.expiresAt = now + 30 * 60 * 1000 ∧
    lookupA (postRealtimeSession uuid now cfg sessions).1 uuid =
      some { id := uuid, config := cfg, upstream := none, clientSocket := none } ∧
    (postRealtimeSession uuid now cfg sessions).2.1 =
      [.journalAppend uuid "session_opened" { source := some "api", config := some cfg }] := by
  refine ⟨rfl, hne, rfl, ?_, rfl, ?_, rfl⟩
  · show "/api/realtime/ws?sessionId=" ++ encodeURIComponent uuid =
      "/api/realtime/ws?sessionId=" ++ uuid
    rw [encodeURIComponent_of_unreserved uuid hchars]
  · exact lookupA_setA uuid _ sessions

/-- C4 witness: the handler at a concrete UUID-shaped id. -/
theorem c4_post_session_amended_witness :
    (postRealtimeSession "a1b2-c3" 7 {} []).2.2.sessionId = "a1b2-c3" ∧
    (postRealtimeSession "a1b2-c3" 7 {} []).2.2.wsPath =
      "/api/realtime/ws?sessionId=" ++ "a1b2-c3" ∧
    (postRealtimeSession "a1b2-c3" 7 {} []).2.2.expiresAt = 7 + 30 * 60 * 1000 := by
  have h := c4_post_session_amended "a1b2-c3" 7 {} [] (by decide) (by decide)
  exact ⟨h.1, h.2.2.2.1, h.2.2.2.2.1⟩

/-- C4 counterexample: the returned `wsPath` is not
`"/ws?sessionId=" ++ urlencode(id)` — the handler prefixes the full route
`/api/realtime/ws`. -/
theorem c4_wspath_counterexample :
    (postRealtimeSession "abc" 0 {} []).2.2.wsPath ≠
      "/ws?sessionId=" ++ encodeURIComponent "abc" := by
  decide

/-! ## C1: frame round trip -/

/-- Decoding inverts encoding of the payload on the identity-preserving
serialization/compression combinations. -/
theorem decode_encode_payload (payload : JsRuntimeVal) (serialization compression : Nat)
    (hser : serialization = JSON_SER ∧ payloadJsonRoundTrips payload = true ∨
            serialization = NO_SERIALIZATION ∧ payloadRawRoundTrips payload = true)
    (hcomp : compression = GZIP ∨ compression = NO_COMPRESSION) :
    decodePayload (encodePayload payload serialization compression) serialization compression =
      expectedRoundTripPayload payload serialization := by
  rcases hcomp with rfl | rfl <;> rcases hser with ⟨rfl, hp⟩ | ⟨rfl, hp⟩ <;>
    cases payload <;>
    simp_all [encodePayload, decodePayload, decodeSerialized, expectedRoundTripPayload,
      stringifyArg, jsonParse_stringify, payloadJsonRoundTrips, payloadRawRoundTrips,
      gzipSyncM, gunzipSyncM, JSON_SER, NO_SERIALIZATION, GZIP, NO_COMPRESSION]

theorem length_allocInt32_append (n : Nat) (rest : List Nat) :
    (allocInt32 n ++ rest).length = 4 + rest.length := by
  rw [allocInt32, length_uint32be_append]

theorem length_allocInt32 (n : Nat) : (allocInt32 n).length = 4 := rfl

/-- The server-frame tail decoder on a well-formed tail: recovers the session
id, the payload length and the payload bytes. -/
theorem finishServerFrame_wellformed (pv hs mt fl ser comp offset : Nat)
    (payloadView sid P : List Nat) (sequence event : Option Nat)
    (hdrop : payloadView.drop offset =
      allocInt32 sid.length ++ (sid ++ (uint32be P.length ++ P)))
    (hsid : sid.length < 2 ^ 31) (hplen : P.length < 2 ^ 32) :
    finishServerFrame pv hs mt fl ser comp payloadView sequence event offset =
      .ok (some
        { protocolVersion := pv
          headerSize := hs
          messageType := mt
          messageTypeSpecificFlags := fl
          serialization := ser
          compression := comp
          event := event
          sequence := sequence
          sessionId := some sid
          code := none
          payloadSize := P.length
          payload := decodePayload P ser comp
          payloadBytes := P }) := by
  have hlenA : (allocInt32 sid.length ++ (sid ++ (uint32be P.length ++ P))).length =
      sid.length + P.length + 8 := by
    simp only [List.length_append, allocInt32, uint32be, List.length_cons, List.length_nil]
    omega
  simp only [finishServerFrame, hdrop, hlenA]
  rw [if_neg (by omega)]
  simp only [readInt32BE_allocInt32 sid.length (sid ++ (uint32be P.length ++ P)) hsid]
  rw [if_neg (by push_cast; omega)]
  have hdrop4 : (allocInt32 sid.length ++ (sid ++ (uint32be P.length ++ P))).drop 4 =
      sid ++ (uint32be P.length ++ P) := by
    rw [allocInt32]
    exact drop4_uint32be _ _
  rw [Int.toNat_natCast, hdrop4, List.take_left]
  have hdropSid : (allocInt32 sid.length ++ (sid ++ (uint32be P.length ++ P))).drop
      (4 + sid.length) = uint32be P.length ++ P := by
    rw [← List.drop_drop, hdrop4, List.drop_left]
  rw [hdropSid]
  simp only [readUInt32BE_uint32be P.length P hplen]
  rw [drop4_uint32be, List.take_length P]

/-- C1 (amended): encode/decode is the semantic identity on the frames the
decoder accepts — server message types (`SERVER_FULL_RESPONSE`,
`SERVER_ACK`), flags containing the event bit `0b0100` and not the sequence
bit `0b0010`, a session id present, and a payload/serialization combination
whose payload representation survives the trip (JSON serialization of a
JSON value or string, or raw serialization of bytes), with gzip or no
compression: the decoded frame carries the same message type, flags, event,
session id, and the semantically-equal payload. -/
theorem c1_roundtrip_amended (messageType flags serialization compression event : Nat)
    (sid : List Nat) (payload : JsRuntimeVal)
    (hmt : messageType = SERVER_FULL_RESPONSE ∨ messageType = SERVER_ACK)
    (hfe : flags &&& MSG_WITH_EVENT ≠ 0)
    (hfs : flags &&& NEG_SEQUENCE = 0)
    (hfl : flags < 16)
    (hev : event < 2 ^ 32)
    (hsid : sid.length < 2 ^ 31)
    (hser : serialization = JSON_SER ∧ payloadJsonRoundTrips payload = true ∨
            serialization = NO_SERIALIZATION ∧ payloadRawRoundTrips payload = true)
    (hcomp : compression = GZIP ∨ compression = NO_COMPRESSION)
    (hplen : (encodePayload payload serialization compression).length < 2 ^ 32) :
    ∃ msg, parseDoubaoMessage (.buf (createDoubaoFrame event (some sid) payload
        messageType flags serialization compression)) = .ok (some msg) ∧
      msg.messageType = messageType ∧
      msg.messageTypeSpecificFlags = flags ∧
      msg.event = some event ∧
      msg.sessionId = some sid ∧
      msg.payload = expectedRoundTripPayload payload serialization := by
  have hmt16 : messageType < 16 := by rcases hmt with rfl | rfl <;> decide
  have hser16 : serialization < 16 := by
    rcases hser with ⟨rfl, _⟩ | ⟨rfl, _⟩ <;> decide
  have hcomp16 : compression < 16 := by rcases hcomp with rfl | rfl <;> decide
  obtain ⟨hb1hi, hb1lo⟩ := headerByte_split messageType hmt16 flags hfl
  obtain ⟨hb2hi, hb2lo⟩ := headerByte_split serialization hser16 compression hcomp16
  have hb0 : (PROTOCOL_VERSION <<< 4 ||| 1) % 256 = 17 := by decide
  have hframe : createDoubaoFrame event (some sid) payload messageType flags serialization
      compression =
      (PROTOCOL_VERSION <<< 4 ||| 1) % 256 ::
      (messageType <<< 4 ||| flags) % 256 ::
      (serialization <<< 4 ||| compression) % 256 :: 0 ::
      (uint32be event ++ (allocInt32 sid.length ++ (sid ++
        (uint32be (encodePayload payload serialization compression).length ++
          encodePayload payload serialization compression)))) := by
    simp [createDoubaoFrame, generateHeader]
  rw [hframe, hb0]
  generalize hT : uint32be event ++ (allocInt32 sid.length ++ (sid ++
    (uint32be (encodePayload payload serialization compression).length ++
      encodePayload payload serialization compression))) = T
  have hTlen : T.length =
      sid.length + (encodePayload payload serialization compression).length + 12 := by
    rw [← hT]
    simp only [List.length_append, uint32be_length, length_allocInt32]
    omega
  simp only [parseDoubaoMessage, List.getD_cons_zero, List.getD_cons_succ, hb1hi, hb1lo,
    hb2hi, hb2lo, List.length_cons]
  rw [if_neg (by omega)]
  rw [show (17 : Nat) % 16 = 1 from rfl, show (17 : Nat) / 16 = 1 from rfl]
  rw [if_neg (by omega)]
  rw [show List.drop (1 * 4) (17 :: (messageType <<< 4 ||| flags) % 256 ::
    (serialization <<< 4 ||| compression) % 256 :: 0 :: T) = T from rfl]
  rw [if_pos hmt]
  rw [if_neg (by omega)]
  rw [if_pos (by omega)]
  rw [if_neg (by omega)]
  have hread : readUInt32BE T 0 = .ok event := by
    rw [← hT]
    exact readUInt32BE_uint32be event _ hev
  simp only [hread]
  have hdropT : T.drop 4 = allocInt32 sid.length ++ (sid ++
      (uint32be (encodePayload payload serialization compression).length ++
        encodePayload payload serialization compression)) := by
    rw [← hT]
    exact drop4_uint32be _ _
  rw [finishServerFrame_wellformed 1 1 messageType flags serialization compression 4
    T sid (encodePayload payload serialization compression) none (some event) hdropT
    hsid hplen]
  exact ⟨_, rfl, rfl, rfl, rfl, rfl,
    decode_encode_payload payload serialization compression hser hcomp⟩

/-- C1 witness: a concrete server-ack frame with a JSON payload, gzip
compression and a session id round-trips. -/
theorem c1_roundtrip_amended_witness :
    (SERVER_ACK = SERVER_FULL_RESPONSE ∨ SERVER_ACK = SERVER_ACK) ∧
    ∃ msg, parseDoubaoMessage (.buf (createDoubaoFrame 100 (some (ascii "abc"))
        (.vjson (.jobj .fnil)) SERVER_ACK MSG_WITH_EVENT JSON_SER GZIP)) = .ok (some msg) ∧
      msg.messageType = SERVER_ACK ∧
      msg.messageTypeSpecificFlags = MSG_WITH_EVENT ∧
      msg.event = some 100 ∧
      msg.sessionId = some (ascii "abc") ∧
      msg.payload = expectedRoundTripPayload (.vjson (.jobj .fnil)) JSON_SER :=
  ⟨Or.inr rfl,
   c1_roundtrip_amended SERVER_ACK MSG_WITH_EVENT JSON_SER GZIP 100 (ascii "abc")
     (.vjson (.jobj .fnil)) (Or.inr rfl) (by decide) (by decide) (by decide) (by decide)
     (by decide) (Or.inl ⟨rfl, rfl⟩) (Or.inl rfl) (by decide)⟩

/-- C1 counterexample: the default client frame (`CLIENT_FULL_REQUEST`)
decodes to nothing — the decoder discards every client message type, so the
round trip fails for most representable frames. -/
theorem c1_roundtrip_counterexample :
    parseDoubaoMessage (.buf (createDoubaoFrame 100 none (.vjson (.jobj .fnil))
      CLIENT_FULL_REQUEST MSG_WITH_EVENT JSON_SER GZIP)) = .ok none := by
  rfl

end VoiceBox
